import Mathlib

/-!
Verification of `lshash/storage.py`: the storage-backend abstraction
(`InMemoryStorage`, `RedisStorage`, `LMDBStorage`, the `storage` factory)
and the preset-dictionary `Compressor` built on zlib streams.

Byte strings (Python 2 `str`) are modelled as lists of byte values.
-/

namespace LSH

/-- Byte strings (Python 2 `str` values) as lists of byte values. -/
abbrev ByteStr := List Nat

/-- Bytes of a Lean string literal, standing for the bytes of a Python `str`
literal (all literals in this module are ASCII). -/
def strBytes (s : String) : ByteStr :=
  s.toList.map Char.toNat

/-- Model of Python dict lookup (`d[k]` / `d.get(k)`): the binding for `k`,
if present. -/
def dictGet {α : Type} (d : List (String × α)) (k : String) : Option α :=
  match d with
  | [] => none
  | (k', v') :: rest => if k' = k then some v' else dictGet rest k

/-- Model of Python dict assignment `d[k] = v`: replace the binding in place,
or add a new binding at the end (insertion order preserved). -/
def dictSet {α : Type} (d : List (String × α)) (k : String) (v : α) :
    List (String × α) :=
  match d with
  | [] => [(k, v)]
  | (k', v') :: rest => if k' = k then (k, v) :: rest else (k', v') :: dictSet rest k v

theorem dictGet_dictSet_self {α : Type} (d : List (String × α)) (k : String) (v : α) :
    dictGet (dictSet d k v) k = some v := by
  induction d with
  | nil => simp [dictGet, dictSet]
  | cons hd tl ih =>
    obtain ⟨k', v'⟩ := hd
    by_cases h : k' = k
    · simp [dictGet, dictSet, h]
    · simp [dictGet, dictSet, h, ih]

theorem dictGet_dictSet_ne {α : Type} (d : List (String × α)) (k k' : String) (v : α)
    (h : k' ≠ k) : dictGet (dictSet d k v) k' = dictGet d k' := by
  induction d with
  | nil => simp [dictGet, dictSet, Ne.symm h]
  | cons hd tl ih =>
    obtain ⟨k₀, v₀⟩ := hd
    by_cases h0 : k₀ = k
    · subst h0
      simp [dictGet, dictSet, Ne.symm h]
    · by_cases h1 : k₀ = k'
      · simp [dictGet, dictSet, h0, h1, h]
      · simp [dictGet, dictSet, h0, h1, ih]

/-- Membership in the key list of a dict is presence of a binding. -/
theorem mem_map_fst_iff_dictGet {α : Type} (d : List (String × α)) (k : String) :
    k ∈ d.map Prod.fst ↔ (dictGet d k).isSome := by
  induction d with
  | nil => simp [dictGet]
  | cons hd tl ih =>
    obtain ⟨k', v'⟩ := hd
    by_cases h : k' = k
    · simp [dictGet, h]
    · simp [dictGet, h, ih, Ne.symm h]

/-! ## Model of zlib stream objects

The `Compressor` class builds its guarantees from the *stream structure* of
zlib: which bytes were fed into a stream before a chunk was produced (the
preset dictionary window), and the fact that a decompressing stream only
reconstructs a chunk when its own window matches byte for byte the window the
chunk was compressed against. We model exactly that structure, abstracting
the entropy coding: a flushed chunk records the window it was produced
against together with the plaintext. A decoder whose window differs from the
chunk's recorded window fails to reconstruct the text, which is the
documented failure mode of preset-dictionary deflate. -/

/-- Flush modes used by the source: `zlib.Z_SYNC_FLUSH` (emit pending output,
keep the dictionary) and `zlib.Z_FINISH` (emit pending output, terminate). -/
inductive FlushMode where
  | syncFlush : FlushMode
  | finish : FlushMode
deriving DecidableEq

/-- Model of `zlib.compressobj` state: the dictionary window (all bytes fed
before the last flush) and the input buffered since then. The compression
level (9 in the source) does not affect any property proved here. -/
structure CompressObj where
  window : ByteStr
  pending : ByteStr
deriving DecidableEq

/-- A fresh `zlib.compressobj(9)`. -/
def CompressObj.init : CompressObj := ⟨[], []⟩

/-- The wire form of one flushed chunk: the window it was compressed against
(length-prefixed) followed by the plaintext (length-prefixed). -/
def encodeChunk (window payload : ByteStr) : ByteStr :=
  window.length :: (window ++ payload.length :: payload)

/-- Model of `c.compress(data)`: buffer the input (zlib is free to emit
nothing until a flush; the model emits everything at the flush). -/
def CompressObj.compress (c : CompressObj) (data : ByteStr) : ByteStr × CompressObj :=
  ([], { c with pending := c.pending ++ data })

/-- Model of `c.flush(mode)`: emit the chunk for everything fed since the
last flush; both `Z_SYNC_FLUSH` and `Z_FINISH` produce the pending output,
and the dictionary window absorbs the flushed text. -/
def CompressObj.flush (c : CompressObj) (_mode : FlushMode) : ByteStr × CompressObj :=
  (encodeChunk c.window c.pending, ⟨c.window ++ c.pending, []⟩)

/-- Decode one chunk against the decoder's current window: succeeds exactly
when the chunk was produced against the same window byte for byte. -/
def decodeChunk (window data : ByteStr) : Option ByteStr :=
  match data with
  | [] => none
  | wl :: rest =>
    if wl = window.length ∧ rest.take wl = window then
      match rest.drop wl with
      | [] => none
      | pl :: p => if pl = p.length then some p else none
    else none

/-- Model of `zlib.decompressobj` state: the window of plaintext decoded so
far. `unconsumed_tail` (input withheld because of an output-size bound) is
always empty in this model, since no output bound is modelled; the
`while d.unconsumed_tail` drain loops of the source are therefore no-ops. -/
structure DecompressObj where
  window : ByteStr
deriving DecidableEq

/-- A fresh `zlib.decompressobj()`. -/
def DecompressObj.init : DecompressObj := ⟨[]⟩

/-- Model of `d.decompress(data)`: decode the chunk against the current
window; on a window mismatch or malformed input the output is garbage
(modelled as empty). -/
def DecompressObj.decompress (d : DecompressObj) (data : ByteStr) :
    ByteStr × DecompressObj :=
  match decodeChunk d.window data with
  | some p => (p, ⟨d.window ++ p⟩)
  | none => ([], d)

theorem decodeChunk_encodeChunk (w p : ByteStr) :
    decodeChunk w (encodeChunk w p) = some p := by
  simp [decodeChunk, encodeChunk]

/-! ## The Compressor class (`storage.py` lines 155-179) -/

/-- `Compressor` instance state: the primed compress baseline `c_context`
and the primed decompress baseline `d_context`, both built once in
`__init__` and only ever cloned by `compress`/`decompress`. -/
structure Compressor where
  c_context : CompressObj
  d_context : DecompressObj
deriving DecidableEq

/-- `Compressor.__init__(seed)`: feed the seed to a fresh compressor and
sync-flush it, keeping the primed stream as the compress baseline; feed the
compressed seed bytes to a fresh decompressor (draining `unconsumed_tail`,
which is always empty in the model), keeping the primed stream as the
decompress baseline. -/
def Compressor.make (seed : ByteStr) : Compressor :=
  let c := CompressObj.init
  let (o1, c1) := c.compress seed
  let (o2, c2) := c1.flush .syncFlush
  let d_seed := o1 ++ o2
  let d := DecompressObj.init
  let (_, d1) := d.decompress d_seed
  ⟨c2, d1⟩

/-- `Compressor.compress(text)`: clone the compress baseline, feed the text,
finish the stream, and return both pieces of output concatenated. -/
def Compressor.compress (cp : Compressor) (text : ByteStr) : ByteStr :=
  let c := cp.c_context
  let (t, c1) := c.compress text
  let (t2, _) := c1.flush .finish
  t ++ t2

/-- `Compressor.compress` as a method call with explicit instance state:
the clone (`self.c_context.copy()`) absorbs all stream mutation, so the
instance comes back unchanged. -/
def Compressor.compressCall (cp : Compressor) (text : ByteStr) :
    ByteStr × Compressor :=
  (cp.compress text, cp)

/-- `Compressor.decompress(ctext)`: clone the decompress baseline, feed the
bytes, drain `unconsumed_tail` (a no-op in the model), return the text. -/
def Compressor.decompress (cp : Compressor) (ctext : ByteStr) : ByteStr :=
  let d := cp.d_context
  let (t, _) := d.decompress ctext
  t

theorem Compressor.make_c_context (seed : ByteStr) :
    (Compressor.make seed).c_context = ⟨seed, []⟩ := rfl

theorem Compressor.make_d_context (seed : ByteStr) :
    (Compressor.make seed).d_context = ⟨seed⟩ := by
  show (DecompressObj.init.decompress (encodeChunk [] seed)).2 = _
  simp [DecompressObj.decompress, DecompressObj.init, decodeChunk_encodeChunk]

theorem Compressor.compress_make (seed text : ByteStr) :
    (Compressor.make seed).compress text = encodeChunk seed text := rfl

/-- Round trip: both baselines of one `Compressor` are primed with the same
seed window, so decompression inverts compression exactly. -/
theorem Compressor.decompress_compress (seed text : ByteStr) :
    (Compressor.make seed).decompress ((Compressor.make seed).compress text) = text := by
  have hd := Compressor.make_d_context seed
  simp [Compressor.decompress, Compressor.compress_make, hd,
    DecompressObj.decompress, decodeChunk_encodeChunk]

/-- A compressed chunk determines its plaintext: equal chunks against one
window carry equal payloads. -/
theorem encodeChunk_payload_inj (w p q : ByteStr) (h : encodeChunk w p = encodeChunk w q) :
    p = q := by
  simp only [encodeChunk, List.cons.injEq] at h
  have h2 := h.2
  have h3 := congrArg (List.drop w.length) h2
  exact (by simpa using h3 : p.length = q.length ∧ p = q).2

/-- C1. Decompressing the result of compressing any text with a Compressor
built from the same seed returns the text exactly. -/
theorem C1_compressor_round_trip (seed text : ByteStr) :
    (Compressor.make seed).decompress ((Compressor.make seed).compress text) = text :=
  Compressor.decompress_compress seed text

/-! ## JSON values and `json.dumps` -/

mutual

/-- JSON values as passed to `json.dumps` by the persistent backends. -/
inductive JValue where
  | num : Int → JValue
  | str : String → JValue
  | arr : JList → JValue
  | obj : JObj → JValue

/-- A JSON array body. -/
inductive JList where
  | nil : JList
  | cons : JValue → JList → JList

/-- A JSON object body (keys in insertion order, as Python 2 dict literals
of the documented scenarios). -/
inductive JObj where
  | onil : JObj
  | ocons : String → JValue → JObj → JObj

end

mutual

/-- Model of Python 2 `json.dumps` with default separators, for ASCII
strings containing no characters that require escaping. -/
def jsonDumps : JValue → ByteStr
  | .num i => strBytes (toString i)
  | .str s => 34 :: (strBytes s ++ [34])
  | .arr xs => 91 :: (jsonDumpsList xs ++ [93])
  | .obj kvs => 123 :: (jsonDumpsObj kvs ++ [125])

/-- Array elements joined by a comma and a space. -/
def jsonDumpsList : JList → ByteStr
  | .nil => []
  | .cons x .nil => jsonDumps x
  | .cons x (.cons y ys) => jsonDumps x ++ (44 :: 32 :: jsonDumpsList (.cons y ys))

/-- Object entries `"key": value` joined by a comma and a space. -/
def jsonDumpsObj : JObj → ByteStr
  | .onil => []
  | .ocons k v .onil => 34 :: (strBytes k ++ (34 :: 58 :: 32 :: jsonDumps v))
  | .ocons k v (.ocons k2 v2 rest) =>
      34 :: (strBytes k ++ (34 :: 58 :: 32 :: jsonDumps v)) ++
        (44 :: 32 :: jsonDumpsObj (.ocons k2 v2 rest))

end

/-! ## Exceptions and observable call results -/

/-- Result of a Python method call: a normal return or a raised exception,
identified by the exception type's name. -/
inductive PyResult (α : Type) where
  | ok : α → PyResult α
  | exn : String → PyResult α
deriving DecidableEq

/-- The exception a call raised, if any: the dimension of observable
behavior shared by all backends regardless of their return types. -/
def PyResult.raised {α : Type} : PyResult α → Option String
  | .ok _ => none
  | .exn e => some e

/-! ## InMemoryStorage (`storage.py` lines 74-92) -/

/-- `InMemoryStorage`: a process-local Python dict from keys to the lists
built by `append_val` (the dict holds live objects of the caller's value
type `α`; no serialization or compression occurs). -/
structure InMemoryStorage (α : Type) where
  storage : List (String × List α)

/-- `InMemoryStorage.__init__`: the config value is ignored and the dict
starts empty. -/
def InMemoryStorage.make (α : Type) : InMemoryStorage α := ⟨[]⟩

/-- `self.storage.keys()`. -/
def InMemoryStorage.keys {α : Type} (s : InMemoryStorage α) : List String :=
  s.storage.map Prod.fst

/-- `self.storage[key] = val`. -/
def InMemoryStorage.set_val {α : Type} (s : InMemoryStorage α) (key : String)
    (val : List α) : InMemoryStorage α :=
  ⟨dictSet s.storage key val⟩

/-- `self.storage[key]`: raises `KeyError` when the key is absent. -/
def InMemoryStorage.get_val {α : Type} (s : InMemoryStorage α) (key : String) :
    PyResult (List α) :=
  match dictGet s.storage key with
  | some v => .ok v
  | none => .exn "KeyError"

/-- `self.storage.setdefault(key, []).append(val)`. -/
def InMemoryStorage.append_val {α : Type} (s : InMemoryStorage α) (key : String)
    (val : α) : InMemoryStorage α :=
  ⟨dictSet s.storage key (((dictGet s.storage key).getD []) ++ [val])⟩

/-- `self.storage.get(key, [])`. -/
def InMemoryStorage.get_list {α : Type} (s : InMemoryStorage α) (key : String) :
    List α :=
  (dictGet s.storage key).getD []

/-! ## RedisStorage (`storage.py` lines 95-119) -/

/-- State of the Redis database the backend is connected to: per-key lists
(the `rpush`/`lrange` namespace) and per-key string slots (`set`/`get`).
A key holds at most one type at a time; the two maps are used on disjoint
keys by this module. -/
structure RedisServer where
  lists : List (String × List ByteStr)
  strs : List (String × ByteStr)

/-- A Redis database with no keys. -/
def RedisServer.empty : RedisServer := ⟨[], []⟩

/-- `RPUSH key val`: append to the list at `key`, creating it if absent. -/
def RedisServer.rpush (srv : RedisServer) (key : String) (val : ByteStr) :
    RedisServer :=
  { srv with lists := dictSet srv.lists key (((dictGet srv.lists key).getD []) ++ [val]) }

/-- `LRANGE key 0 -1`: the whole list at `key`, empty when absent. -/
def RedisServer.lrangeAll (srv : RedisServer) (key : String) : List ByteStr :=
  (dictGet srv.lists key).getD []

/-- Every key present in the database. -/
def RedisServer.allKeys (srv : RedisServer) : List String :=
  srv.lists.map Prod.fst ++ srv.strs.map Prod.fst

/-- Redis `KEYS` glob matching over characters: `*` matches any run, `?`
any single character, anything else itself. -/
def globMatchL (p s : List Char) : Bool :=
  match p, s with
  | [], [] => true
  | [], _ :: _ => false
  | '*' :: ps, ss =>
      globMatchL ps ss ||
        (match ss with
         | [] => false
         | _ :: ss2 => globMatchL ('*' :: ps) ss2)
  | '?' :: ps, _ :: ss => globMatchL ps ss
  | _ :: _, [] => false
  | c :: ps, c2 :: ss => c == c2 && globMatchL ps ss
termination_by (s.length, p.length)

/-- Redis `KEYS pattern` matching on strings. -/
def globMatch (pattern s : String) : Bool :=
  globMatchL pattern.toList s.toList

/-- The match-all pattern accepts every key. -/
theorem globMatchL_star (s : List Char) : globMatchL ['*'] s = true := by
  induction s with
  | nil => simp [globMatchL]
  | cons c cs ih => simp [globMatchL, ih]

theorem globMatch_star (s : String) : globMatch "*" s = true := by
  have h : "*".toList = ['*'] := rfl
  simp [globMatch, h, globMatchL_star]

/-- The seed literal assigned to `seed` in both `RedisStorage.__init__` and
`LMDBStorage.__init__` (duplicated verbatim in the source). -/
def seedLiteral : String :=
  "[4.0, 36.0, 18.0, 2.0, 0.0, 0.0, 0.0, 0.0, 1.0, 18.0, 75.0, 84.0, 1.0, 1.0, 1.0, 0.0, 0.0, 0.0, 70.0, 144.0, 14.0, 15.0, 12.0, 1.0, 0.0, 0.0, 9.0, 24.0, 3.0, 3.0, 10.0, 2.0, 6.0, 81.0, 122.0, 2.0, 0.0, 0.0, 0.0, 0.0, 144.0, 144.0, 144.0, 50.0, 1.0, 4.0, 14.0, 17.0, 52.0, 9.0, 15.0, 49.0, 14.0, 81.0, 144.0, 40.0, 0.0, 0.0, 1.0, 6.0, 3.0, 15.0, 97.0, 55.0, 11.0, 16.0, 13.0, 0.0, 0.0, 0.0, 0.0, 3.0, 144.0, 100.0, 18.0, 0.0, 0.0, 0.0, 2.0, 98.0, 144.0, 12.0, 0.0, 0.0, 0.0, 11.0, 60.0, 50.0, 0.0, 0.0, 0.0, 0.0, 6.0, 9.0, 35.0, 20.0, 0.0, 0.0, 0.0, 0.0, 0.0, 0.0, 0.0, 0.0, 93.0, 24.0, 0.0, 0.0, 0.0, 0.0, 0.0, 24.0, 71.0, 36.0, 0.0, 0.0, 0.0, 0.0, 1.0, 6.0, 0.0, 0.0, 0.0, 0.0, 1.0, 2.0, 1.0, 0.0]"

/-- The seed as the byte string fed to the zlib stream. -/
def seedBytes : ByteStr := strBytes seedLiteral

/-- `RedisStorage` instance state: the connected database and the
seed-primed Compressor built in `__init__`. The redis client library is
assumed present (its absence raises ImportError at construction). -/
structure RedisStorage where
  storage : RedisServer
  c : Compressor

/-- `RedisStorage.__init__`: connect to the database (whose current
contents are `srv`) and build `Compressor(seed)`. -/
def RedisStorage.make (srv : RedisServer) : RedisStorage :=
  ⟨srv, Compressor.make seedBytes⟩

/-- `self.storage.keys(pattern)`. -/
def RedisStorage.keys (s : RedisStorage) (pattern : String) : List String :=
  s.storage.allKeys.filter (fun k => globMatch pattern k)

/-- `self.storage.set(key, val)`. -/
def RedisStorage.set_val (s : RedisStorage) (key : String) (val : ByteStr) :
    RedisStorage :=
  { s with storage := { s.storage with strs := dictSet s.storage.strs key val } }

/-- `self.storage.get(key)`: returns the Python `None` sentinel (modelled
as `Option.none`) when the key is absent; never raises. -/
def RedisStorage.get_val (s : RedisStorage) (key : String) : PyResult (Option ByteStr) :=
  .ok (dictGet s.storage.strs key)

/-- `self.storage.rpush(key, self.c.compress(json.dumps(val)))`. -/
def RedisStorage.append_val (s : RedisStorage) (key : String) (val : JValue) :
    RedisStorage :=
  let cval := s.c.compress (jsonDumps val)
  { s with storage := s.storage.rpush key cval }

/-- `[self.c.decompress(r) for r in self.storage.lrange(key, 0, -1)]`. -/
def RedisStorage.get_list (s : RedisStorage) (key : String) : List ByteStr :=
  (s.storage.lrangeAll key).map s.c.decompress

/-! ## LMDBStorage (`storage.py` lines 122-153) -/

/-- Order on raw byte strings used by LMDB to sort duplicate data items:
lexicographic on bytes. -/
def bytesLt : ByteStr → ByteStr → Bool
  | [], [] => false
  | [], _ :: _ => true
  | _ :: _, [] => false
  | a :: xs, b :: ys =>
    if a < b then true else if a = b then bytesLt xs ys else false

/-- Model of `txn.put(key, data)` on a `dupsort=True` database: the
duplicates under one key form a set sorted by raw byte value, so inserting
a data item already present under the key is a no-op. -/
def dupInsert (v : ByteStr) : List ByteStr → List ByteStr
  | [] => [v]
  | w :: ws =>
    if v = w then w :: ws
    else if bytesLt v w then v :: w :: ws
    else w :: dupInsert v ws

/-- `LMDBStorage` instance state: the contents of the named `dupsort`
sub-database (each key's duplicates in sorted order) and the seed-primed
Compressor built in `__init__`. The lmdb library is assumed present (its
absence raises ImportError at construction). -/
structure LMDBStorage where
  db : List (String × List ByteStr)
  c : Compressor

/-- `LMDBStorage.__init__`: open the environment at `config['path']` and
the sub-database named `config['db']` (current contents `db0`), and build
`Compressor(seed)`. -/
def LMDBStorage.make (db0 : List (String × List ByteStr)) : LMDBStorage :=
  ⟨db0, Compressor.make seedBytes⟩

/-- `LMDBStorage.keys`: `raise NotImplementedError`. -/
def LMDBStorage.keys (_s : LMDBStorage) (_pattern : String) : PyResult (List String) :=
  .exn "NotImplementedError"

/-- `LMDBStorage.set_val`: `raise NotImplementedError`. -/
def LMDBStorage.set_val (_s : LMDBStorage) (_key : String) (_val : ByteStr) :
    PyResult Unit :=
  .exn "NotImplementedError"

/-- `LMDBStorage.get_val`: `raise NotImplementedError`. -/
def LMDBStorage.get_val (_s : LMDBStorage) (_key : String) : PyResult (Option ByteStr) :=
  .exn "NotImplementedError"

/-- `append_val`: compress the serialized value and `txn.put` it under
`key` inside a write transaction (the transaction always commits in this
sequential model). -/
def LMDBStorage.append_val (s : LMDBStorage) (key : String) (val : JValue) :
    LMDBStorage :=
  let cval := s.c.compress (jsonDumps val)
  { s with db := dictSet s.db key (dupInsert cval ((dictGet s.db key).getD [])) }

/-- `get_list`: position a cursor on `key`; when the key is present,
decompress every duplicate in the store's sorted order, else return `[]`. -/
def LMDBStorage.get_list (s : LMDBStorage) (key : String) : List ByteStr :=
  match dictGet s.db key with
  | some l => l.map s.c.decompress
  | none => []

/-! ## The storage factory (`storage.py` lines 24-37) -/

/-- The `config['redis']` sub-dictionary: connection parameters plus the
`db` entry the factory writes (absent until then). -/
structure RedisConf where
  params : List (String × String)
  db : Option Int
deriving DecidableEq

/-- The `config['lmdb']` sub-dictionary: the environment path plus the
`db` entry the factory writes (absent until then). -/
structure LmdbConf where
  path : String
  db : Option String
deriving DecidableEq

/-- The `storage_config` dictionary: which backend kinds are present, each
with its sub-configuration. -/
structure StorageConfig where
  dict : Option Unit
  redis : Option RedisConf
  lmdb : Option LmdbConf
deriving DecidableEq

/-- The backend instance the factory returns, carrying the sub-config its
constructor received. -/
inductive Backend where
  | inMemory : Backend
  | redis : RedisConf → Backend
  | lmdb : LmdbConf → Backend
deriving DecidableEq

/-- The message of the `ValueError` raised when no known kind is present. -/
def valueErrorMsg : String := "Only in-memory dictionary and Redis are supported."

/-- `storage(storage_config, index)`: pick the first present kind in the
order dict, redis, lmdb; for redis write `index` into the sub-dict under
`db`, for lmdb write `str(index)`; raise `ValueError` when no kind is
recognized. The in-place mutation of the caller's dict is modelled by
returning the updated config next to the result. -/
def storage (storage_config : StorageConfig) (index : Int) :
    Except String Backend × StorageConfig :=
  if storage_config.dict.isSome then
    (.ok .inMemory, storage_config)
  else
    match storage_config.redis with
    | some rc =>
      let rc2 : RedisConf := { rc with db := some index }
      (.ok (.redis rc2), { storage_config with redis := some rc2 })
    | none =>
      match storage_config.lmdb with
      | some lc =>
        let lc2 : LmdbConf := { lc with db := some (toString index) }
        (.ok (.lmdb lc2), { storage_config with lmdb := some lc2 })
      | none => (.error valueErrorMsg, storage_config)

/-! ## Claim theorems -/

/-- C8. Compression is deterministic: a second `compress` call on the
instance a first call left behind produces byte-identical output, and the
call leaves the instance equal to a freshly built Compressor from the same
seed (so two instances built from one seed, being equal values, also give
byte-identical output). -/
theorem C8_compress_deterministic (seed x : ByteStr) :
    (((Compressor.make seed).compressCall x).2.compressCall x).1
      = ((Compressor.make seed).compressCall x).1
    ∧ ((Compressor.make seed).compressCall x).2 = Compressor.make seed :=
  ⟨rfl, rfl⟩

theorem InMemoryStorage.get_list_append_val {α : Type} (s : InMemoryStorage α)
    (k : String) (v : α) :
    (s.append_val k v).get_list k = s.get_list k ++ [v] := by
  simp [InMemoryStorage.append_val, InMemoryStorage.get_list, dictGet_dictSet_self]

theorem InMemoryStorage.get_list_appends {α : Type} (s : InMemoryStorage α)
    (k : String) (vs : List α) :
    (vs.foldl (fun st v => st.append_val k v) s).get_list k = s.get_list k ++ vs := by
  induction vs generalizing s with
  | nil => simp
  | cons v vs ih =>
    simp only [List.foldl_cons, ih, InMemoryStorage.get_list_append_val,
      List.append_assoc, List.singleton_append]

/-- C6. On the in-memory backend, appending v1..vn in order under a key of
a fresh store makes getList return exactly [v1..vn]; in particular the
two-append scenario returns [[1,2],[3,4]]. -/
theorem C6_in_memory_append_order {α : Type} (k : String) (vs : List α) :
    (vs.foldl (fun st v => st.append_val k v) (InMemoryStorage.make α)).get_list k = vs
    ∧ (((InMemoryStorage.make (List Nat)).append_val "k1" [1, 2]).append_val "k1"
        [3, 4]).get_list "k1" = [[1, 2], [3, 4]] := by
  constructor
  · have h := InMemoryStorage.get_list_appends (InMemoryStorage.make α) k vs
    simpa [InMemoryStorage.make, InMemoryStorage.get_list, dictGet] using h
  · decide

/-- C7. getList on a never-appended key returns the empty sequence on each
of the three backends. -/
theorem C7_get_list_absent_key {α : Type} (im : InMemoryStorage α) (rs : RedisStorage)
    (ls : LMDBStorage) (k : String)
    (h1 : dictGet im.storage k = none)
    (h2 : dictGet rs.storage.lists k = none)
    (h3 : dictGet ls.db k = none) :
    im.get_list k = [] ∧ rs.get_list k = [] ∧ ls.get_list k = [] := by
  refine ⟨?_, ?_, ?_⟩
  · simp [InMemoryStorage.get_list, h1]
  · simp [RedisStorage.get_list, RedisServer.lrangeAll, h2]
  · simp [LMDBStorage.get_list, h3]

/-- Witness for C7 at fresh backends and the key "k1". -/
theorem C7_get_list_absent_key_witness :
    (InMemoryStorage.make Nat).get_list "k1" = []
    ∧ (RedisStorage.make RedisServer.empty).get_list "k1" = []
    ∧ (LMDBStorage.make []).get_list "k1" = [] :=
  C7_get_list_absent_key (InMemoryStorage.make Nat) (RedisStorage.make RedisServer.empty)
    (LMDBStorage.make []) "k1" rfl rfl rfl

/-- C4 counterexample: on the absent key "k1" the three backends do not
behave alike — the in-memory backend raises KeyError, the network backend
returns the None sentinel, the embedded backend raises NotImplementedError. -/
theorem C4_get_val_not_uniform :
    ¬ ((((InMemoryStorage.make ByteStr).get_val "k1").raised
          = ((RedisStorage.make RedisServer.empty).get_val "k1").raised)
       ∧ (((RedisStorage.make RedisServer.empty).get_val "k1").raised
          = ((LMDBStorage.make []).get_val "k1").raised)) := by
  intro h
  exact absurd h.1 (by decide)

/-- C4 amended: on an absent key the in-memory backend raises KeyError,
the network backend returns the None sentinel, and the embedded backend
raises NotImplementedError — no two of the three behave alike. -/
theorem C4_get_val_absent_amended {α : Type} (im : InMemoryStorage α) (rs : RedisStorage)
    (ls : LMDBStorage) (k : String)
    (h1 : dictGet im.storage k = none)
    (h2 : dictGet rs.storage.strs k = none) :
    im.get_val k = .exn "KeyError"
    ∧ rs.get_val k = .ok none
    ∧ ls.get_val k = .exn "NotImplementedError"
    ∧ (im.get_val k).raised ≠ (rs.get_val k).raised
    ∧ (rs.get_val k).raised ≠ (ls.get_val k).raised
    ∧ (im.get_val k).raised ≠ (ls.get_val k).raised := by
  have e1 : im.get_val k = .exn "KeyError" := by simp [InMemoryStorage.get_val, h1]
  have e2 : rs.get_val k = .ok none := by simp [RedisStorage.get_val, h2]
  have e3 : ls.get_val k = PyResult.exn "NotImplementedError" := rfl
  refine ⟨e1, e2, e3, ?_, ?_, ?_⟩ <;> simp [e1, e2, e3, PyResult.raised]

/-- Witness for the amended C4 at fresh backends and the key "k1". -/
theorem C4_get_val_absent_amended_witness :
    (InMemoryStorage.make Nat).get_val "k1" = .exn "KeyError"
    ∧ (RedisStorage.make RedisServer.empty).get_val "k1" = .ok none
    ∧ (LMDBStorage.make []).get_val "k1" = .exn "NotImplementedError"
    ∧ (((InMemoryStorage.make Nat).get_val "k1").raised
        ≠ ((RedisStorage.make RedisServer.empty).get_val "k1").raised)
    ∧ (((RedisStorage.make RedisServer.empty).get_val "k1").raised
        ≠ (((LMDBStorage.make []).get_val "k1")).raised)
    ∧ (((InMemoryStorage.make Nat).get_val "k1").raised
        ≠ (((LMDBStorage.make []).get_val "k1")).raised) :=
  C4_get_val_absent_amended (InMemoryStorage.make Nat) (RedisStorage.make RedisServer.empty)
    (LMDBStorage.make []) "k1" rfl rfl

theorem exists_mem_iff_dictGet {α : Type} (d : List (String × α)) (k : String) :
    (∃ x, (k, x) ∈ d) ↔ (dictGet d k).isSome := by
  induction d with
  | nil => simp [dictGet]
  | cons hd tl ih =>
    obtain ⟨k', v'⟩ := hd
    by_cases h : k' = k
    · subst h
      simp [dictGet]
    · simp [dictGet, h, ← ih, Ne.symm h]

/-- C5 counterexample: keys() on the embedded backend raises
NotImplementedError instead of returning a sequence of keys. -/
theorem C5_lmdb_keys_raises :
    (LMDBStorage.make []).keys "*" = .exn "NotImplementedError" := rfl

/-- C5 amended: the in-memory and network backends implement keys() as an
enumeration of the stored keys, but the embedded backend's keys() raises
NotImplementedError, so the contract suite cannot pass identically for
keys() on all three backends. -/
theorem C5_keys_amended {α : Type} (im : InMemoryStorage α) (rs : RedisStorage)
    (ls : LMDBStorage) (pat k : String) :
    (k ∈ im.keys ↔ (dictGet im.storage k).isSome)
    ∧ (k ∈ rs.keys "*"
        ↔ ((dictGet rs.storage.lists k).isSome ∨ (dictGet rs.storage.strs k).isSome))
    ∧ ls.keys pat = .exn "NotImplementedError" := by
  refine ⟨?_, ?_, rfl⟩
  · exact mem_map_fst_iff_dictGet im.storage k
  · simp [RedisStorage.keys, RedisServer.allKeys, globMatch_star,
      exists_mem_iff_dictGet]

/-- C3 counterexample: a descriptor naming both the memory and the network
kind does not fail — the factory returns the in-memory backend. -/
theorem C3_both_kinds_no_error :
    (storage ⟨some (), some ⟨[], none⟩, none⟩ 0).1 = .ok .inMemory := rfl

/-- C3 amended: the factory raises ValueError exactly when none of the
three recognized kinds is present (which covers unrecognized-only
descriptors); when several kinds are present it silently picks the first
in the order dict, redis, lmdb — in particular any descriptor with the
memory kind present yields the in-memory backend, never an error. -/
theorem C3_factory_error_amended (cfg : StorageConfig) (idx : Int) :
    ((storage cfg idx).1 = .error valueErrorMsg
       ↔ cfg.dict = none ∧ cfg.redis = none ∧ cfg.lmdb = none)
    ∧ (storage { cfg with dict := some () } idx).1 = .ok .inMemory := by
  obtain ⟨d, r, l⟩ := cfg
  constructor
  · cases d <;> cases r <;> cases l <;> simp [storage]
  · simp [storage]

/-- C10. The factory writes the index identifier into the chosen backend's
sub-dictionary under db — as the integer for redis, as its string form for
lmdb — so a descriptor whose db entry was absent does not come back
unchanged. -/
theorem C10_factory_mutates_config (ps : List (String × String)) (path : String)
    (idx : Int) :
    ((storage ⟨none, some ⟨ps, none⟩, none⟩ idx).2
        = ⟨none, some ⟨ps, some idx⟩, none⟩)
    ∧ (storage ⟨none, some ⟨ps, none⟩, none⟩ idx).2 ≠ ⟨none, some ⟨ps, none⟩, none⟩
    ∧ ((storage ⟨none, none, some ⟨path, none⟩⟩ idx).2
        = ⟨none, none, some ⟨path, some (toString idx)⟩⟩)
    ∧ (storage ⟨none, none, some ⟨path, none⟩⟩ idx).2 ≠ ⟨none, none, some ⟨path, none⟩⟩ := by
  refine ⟨rfl, ?_, rfl, ?_⟩ <;> simp [storage]

theorem RedisStorage.get_list_after_append (srv : RedisServer) (k : String) (v : JValue)
    (h : dictGet srv.lists k = none) :
    ((RedisStorage.make srv).append_val k v).get_list k = [jsonDumps v] := by
  simp [RedisStorage.make, RedisStorage.append_val, RedisStorage.get_list,
    RedisServer.rpush, RedisServer.lrangeAll, dictGet_dictSet_self, h,
    Compressor.decompress_compress]

/-- The value of Scenario B, the Python dict with id "a" and vec [1,2,3]. -/
def scenarioBValue : JValue :=
  .obj (.ocons "id" (.str "a")
    (.ocons "vec" (.arr (.cons (.num 1) (.cons (.num 2) (.cons (.num 3) .nil)))) .onil))

/-- C2 counterexample: after appendValue on a fresh key, the single entry
getList returns is the serialized JSON text of the value (a byte string),
not the deserialized map — no deserialization happens on the read path. -/
theorem C2_get_list_returns_serialized_text :
    ((RedisStorage.make RedisServer.empty).append_val "bucket1" scenarioBValue).get_list
        "bucket1"
      = [strBytes "\x7b\"id\": \"a\", \"vec\": [1, 2, 3]\x7d"] := by
  have h := RedisStorage.get_list_after_append RedisServer.empty "bucket1" scenarioBValue rfl
  rw [h]
  simp only [scenarioBValue, jsonDumps, jsonDumpsObj, jsonDumpsList]
  decide

/-- C2 amended: on the network backend, appendValue(k, v) on a fresh key k
makes getList(k) a one-element sequence whose entry is the serialized text
json.dumps(v) of the original value — the decompressed serialization, not
the deserialized value. -/
theorem C2_network_append_get_amended (srv : RedisServer) (k : String) (v : JValue)
    (h : dictGet srv.lists k = none) :
    ((RedisStorage.make srv).append_val k v).get_list k = [jsonDumps v] :=
  RedisStorage.get_list_after_append srv k v h

/-- Witness for the amended C2 at an empty database, key "k1", value 7. -/
theorem C2_network_append_get_amended_witness :
    ((RedisStorage.make RedisServer.empty).append_val "k1" (.num 7)).get_list "k1"
      = [jsonDumps (.num 7)] :=
  C2_network_append_get_amended RedisServer.empty "k1" (.num 7) rfl

/-- C9 counterexample: on the embedded backend, appending the same value
twice under one key leaves a single stored entry — the dupsort database
keeps sorted, distinct duplicates, so the second identical put is a no-op
and getList has length 1, not 2. -/
theorem C9_lmdb_equal_appends_length_one :
    ¬ (((((LMDBStorage.make []).append_val "k1" (.num 5)).append_val "k1"
          (.num 5)).get_list "k1").length = 2) := by
  simp [LMDBStorage.make, LMDBStorage.append_val, LMDBStorage.get_list,
    dictGet, dictSet, dupInsert]

/-- C9 amended: two appendValue calls under one key of a fresh embedded
backend make getList return a sequence of length 2 when the two values'
serializations differ; when the serializations are identical the second
insert is a dupsort no-op and the length is 1. -/
theorem C9_lmdb_two_appends_amended (k : String) (v1 v2 : JValue)
    (h : jsonDumps v1 ≠ jsonDumps v2) :
    (((((LMDBStorage.make []).append_val k v1).append_val k v2).get_list k).length = 2)
    ∧ (((((LMDBStorage.make []).append_val k v1).append_val k v1).get_list k).length = 1) := by
  have hc : (Compressor.make seedBytes).compress (jsonDumps v1)
      ≠ (Compressor.make seedBytes).compress (jsonDumps v2) := by
    rw [Compressor.compress_make, Compressor.compress_make]
    exact fun he => h (encodeChunk_payload_inj _ _ _ he)
  constructor
  · simp only [LMDBStorage.make, LMDBStorage.append_val, LMDBStorage.get_list]
    simp [dictGet, dictSet, dupInsert, Ne.symm hc]
    by_cases hb : bytesLt ((Compressor.make seedBytes).compress (jsonDumps v2))
        ((Compressor.make seedBytes).compress (jsonDumps v1)) <;> simp [hb]
  · simp [LMDBStorage.make, LMDBStorage.append_val, LMDBStorage.get_list,
      dictGet, dictSet, dupInsert]

/-- Witness for the amended C9 at key "k1" and the values 1 and 2. -/
theorem C9_lmdb_two_appends_amended_witness :
    jsonDumps (.num 1) ≠ jsonDumps (.num 2)
    ∧ ((((((LMDBStorage.make []).append_val "k1" (.num 1)).append_val "k1"
          (.num 2)).get_list "k1").length = 2)
       ∧ (((((LMDBStorage.make []).append_val "k1" (.num 1)).append_val "k1"
          (.num 1)).get_list "k1").length = 1)) :=
  ⟨by simp [jsonDumps]; decide,
   C9_lmdb_two_appends_amended "k1" (.num 1) (.num 2) (by simp [jsonDumps]; decide)⟩

end LSH
